import Mathlib

/-!
# Verification of `rust-trend`, module `src/region_interest.rs`

Shallow embedding of the `RegionInterest` accessor of the rust-trend
library (a Google Trends client).  The embedding follows the Rust source:

* `Coordinates`, `InterestForRegion`, `GeoMapData`, `RegionInterestResponse`
  mirror the serde-decoded response structs;
* `RegionInterest.new`, `RegionInterest.with_filter`, `RegionInterest.get`
  and `RegionInterest.get_for` mirror the methods of `impl RegionInterest`;
* Rust panics are made explicit with the `Outcome` type: a Rust call that
  can panic is embedded as a function into `Outcome α`;
* `Vec::remove(i)` (which returns the removed element and panics when
  `i` is out of bounds) is embedded as `vecRemove`; the callers in this
  module discard the shortened vector, so only the removed element is
  returned;
* the serde `Deserialize` derives (with `rename_all = "camelCase"`) are
  embedded as explicit decoders over a small JSON model.

`Client`, `Country`, `Keywords` and `send_request` live in other modules
of the repository (not part of the excerpt); they are modelled from the
spec where needed, marked `Modelled from the spec:` on their doc comments.

`f64` payloads (latitude/longitude) are carried as `Int` in the JSON
model: no verified property depends on floating-point semantics, only on
the structural shape of the decoded data.
-/

set_option autoImplicit false

namespace RustTrend

/-- Modelled from the spec: `Country` is the "enumerated geography
selector, including an `ALL` countries variant" defined in the crate
root, which is not part of the excerpt.  Only the `ALL` variant is
distinguished by the code under verification; a few representative
country variants stand for the rest of the enumeration. -/
inductive Country where
  | ALL
  | US
  | FR
  | JP
  deriving Repr, DecidableEq

/-- Modelled from the spec: `Keywords` is "an ordered, fixed set of
search terms registered at client construction"; the field access
`client.keywords.keywords` in `get_for` shows the inner field name. -/
structure Keywords where
  keywords : List String
  deriving Repr, DecidableEq

/-- Modelled from the spec: `Client` "aggregates keywords + country +
built query state; must be explicitly finalized (built) before any
request is issued".  The built query state is abstracted to the flag
`built`. -/
structure Client where
  keywords : Keywords
  country : Country
  built : Bool
  deriving Repr, DecidableEq

/-- `struct Coordinates { lat: f64, lng: f64 }`.  The `f64` payloads are
carried as `Int`; no claim depends on floating-point arithmetic. -/
structure Coordinates where
  lat : Int
  lng : Int
  deriving Repr, DecidableEq

/-- `struct InterestForRegion` — one geographic entry of the decoded
response (`CompactString` is carried as `String`, `Vec<u8>` as
`List Nat` whose elements the decoder bounds by 256, `usize` as `Nat`). -/
structure InterestForRegion where
  coordinates : Coordinates
  formatted_value : List String
  geo_name : String
  has_data : List Bool
  max_value_index : Nat
  value : List Nat
  deriving Repr, DecidableEq

/-- `struct GeoMapData { geo_map_data: Vec<InterestForRegion> }`. -/
structure GeoMapData where
  geo_map_data : List InterestForRegion
  deriving Repr, DecidableEq

/-- `struct RegionInterestResponse { default: GeoMapData }`. -/
structure RegionInterestResponse where
  default : GeoMapData
  deriving Repr, DecidableEq

/-- `struct RegionInterest { client: Client, resolution: &'static str }`. -/
structure RegionInterest where
  client : Client
  resolution : String
  deriving Repr, DecidableEq

/-- Outcome of a Rust computation that can panic: either a value or a
panic carrying its message. -/
inductive Outcome (α : Type) where
  | ok (val : α)
  | panicked (msg : String)
  deriving Repr, DecidableEq

/-- `Vec::remove(i)`: returns the element at index `i`, panicking when
`i` is out of bounds.  The callers in `region_interest.rs` drop the
shortened vector, so it is not returned. -/
def vecRemove {α : Type} (xs : List α) (i : Nat) : Outcome α :=
  match xs.get? i with
  | some x => Outcome.ok x
  | none => Outcome.panicked "removal index (is out of bounds)"

/-- `RegionInterest::new(client)`: wraps the client; the resolution is
`"COUNTRY"` when `client.country == Country::ALL` and `"REGION"`
otherwise. -/
def RegionInterest.new (client : Client) : RegionInterest :=
  let res := if client.country = Country.ALL then "COUNTRY" else "REGION"
  { client := client, resolution := res }

/-- `RegionInterest::with_filter(self, scale)`: sets `self.resolution`
to `scale` and returns the updated value; no validation is performed. -/
def RegionInterest.with_filter (self : RegionInterest) (scale : String) : RegionInterest :=
  { self with resolution := scale }

/-- Modelled from the spec: `send_request` belongs to the
`request_handler` module, which is not part of the excerpt.  Per the
spec it returns "one decoded payload per registered keyword-query, in
fixed order: [aggregate, keyword0, keyword1, ...]"; the actual payload
comes from the network, so it is a parameter `wire`.  Per the spec's
error-handling section and the doc comment on `with_filter`, the
request is fatal when the client is unbuilt, and fatal (the response
cannot be decoded) when the `"REGION"` filter is combined with the
`ALL`-countries geography. -/
def RegionInterest.send_request (self : RegionInterest)
    (wire : List RegionInterestResponse) : Outcome (List RegionInterestResponse) :=
  if self.client.built = false then
    Outcome.panicked "client has not been built"
  else if self.resolution = "REGION" ∧ self.client.country = Country.ALL then
    Outcome.panicked "response entries are labeled COUNTRY and do not decode under the REGION filter"
  else
    Outcome.ok wire

/-- `RegionInterest::get(&self)`:
`self.send_request().remove(0).default.geo_map_data`. -/
def RegionInterest.get (self : RegionInterest)
    (wire : List RegionInterestResponse) : Outcome (List InterestForRegion) :=
  match self.send_request wire with
  | Outcome.panicked m => Outcome.panicked m
  | Outcome.ok response =>
    match vecRemove response 0 with
    | Outcome.panicked m => Outcome.panicked m
    | Outcome.ok r => Outcome.ok r.default.geo_map_data

/-- `RegionInterest::get_for(&self, keyword)`: looks the keyword up in
`self.client.keywords.keywords` (`Iterator::position`), panics via
`Err(KeywordNotSet).unwrap()` when absent, and otherwise returns
`self.send_request().remove(keyword_index + 1).default.geo_map_data`.
The lookup happens before `send_request` is invoked, as in the source. -/
def RegionInterest.get_for (self : RegionInterest) (keyword : String)
    (wire : List RegionInterestResponse) : Outcome (List InterestForRegion) :=
  match self.client.keywords.keywords.findIdx? (fun x => x = keyword) with
  | none => Outcome.panicked "called `Result::unwrap()` on an `Err` value: KeywordNotSet"
  | some keyword_index =>
    let response_index := keyword_index + 1
    match self.send_request wire with
    | Outcome.panicked m => Outcome.panicked m
    | Outcome.ok response =>
      match vecRemove response response_index with
      | Outcome.panicked m => Outcome.panicked m
      | Outcome.ok r => Outcome.ok r.default.geo_map_data

/-! ## The serde decode layer

`RegionInterestResponse` and its nested structs derive `Deserialize`
(`rename_all = "camelCase"` on `GeoMapData` and `InterestForRegion`).
The derive is embedded as explicit decoders over a small JSON model:
object fields are resolved by name, a missing or ill-typed field fails
the decode, `u8` elements must lie in `[0, 256)`. -/

/-- Minimal JSON value model.  Numeric payloads are carried as `Int`
(the `f64` coordinates are never computed with, only stored). -/
inductive Json where
  | null
  | bool (b : Bool)
  | num (n : Int)
  | str (s : String)
  | arr (elems : List Json)
  | obj (fields : List (String × Json))

/-- Resolve a struct field by name, as the serde derive does. -/
def Json.getField : Json → String → Option Json
  | Json.obj fields, name => fields.lookup name
  | _, _ => none

/-- serde decode of a `bool`. -/
def decodeBool : Json → Option Bool
  | Json.bool b => some b
  | _ => none

/-- serde decode of a string (`CompactString` carried as `String`). -/
def decodeStr : Json → Option String
  | Json.str s => some s
  | _ => none

/-- serde decode of a `u8`: a JSON number in `[0, 256)`. -/
def decodeU8 : Json → Option Nat
  | Json.num n => if 0 ≤ n ∧ n < 256 then some n.toNat else none
  | _ => none

/-- serde decode of a `usize`: a nonnegative JSON number. -/
def decodeUsize : Json → Option Nat
  | Json.num n => if 0 ≤ n then some n.toNat else none
  | _ => none

/-- serde decode of an `f64` coordinate; the payload is kept as `Int`. -/
def decodeNum : Json → Option Int
  | Json.num n => some n
  | _ => none

/-- Decode every element of a JSON array body. -/
def decodeElems {α : Type} (d : Json → Option α) : List Json → Option (List α)
  | [] => some []
  | j :: js =>
    match d j, decodeElems d js with
    | some x, some xs => some (x :: xs)
    | _, _ => none

/-- serde decode of a `Vec`. -/
def decodeVec {α : Type} (d : Json → Option α) : Json → Option (List α)
  | Json.arr elems => decodeElems d elems
  | _ => none

/-- serde decode of `Coordinates` (fields `lat`, `lng`). -/
def decodeCoordinates (j : Json) : Option Coordinates :=
  (j.getField "lat").bind fun jlat =>
  (decodeNum jlat).bind fun lat =>
  (j.getField "lng").bind fun jlng =>
  (decodeNum jlng).bind fun lng =>
  some { lat := lat, lng := lng }

/-- serde decode of `InterestForRegion`: camelCase field names per the
`rename_all` attribute; every field is required; no relation between
the array lengths is checked (none is checked by the derive either). -/
def decodeInterestForRegion (j : Json) : Option InterestForRegion :=
  (j.getField "coordinates").bind fun jc =>
  (decodeCoordinates jc).bind fun coordinates =>
  (j.getField "formattedValue").bind fun jf =>
  (decodeVec decodeStr jf).bind fun formatted_value =>
  (j.getField "geoName").bind fun jg =>
  (decodeStr jg).bind fun geo_name =>
  (j.getField "hasData").bind fun jh =>
  (decodeVec decodeBool jh).bind fun has_data =>
  (j.getField "maxValueIndex").bind fun jm =>
  (decodeUsize jm).bind fun max_value_index =>
  (j.getField "value").bind fun jv =>
  (decodeVec decodeU8 jv).bind fun value =>
  some { coordinates := coordinates, formatted_value := formatted_value,
         geo_name := geo_name, has_data := has_data,
         max_value_index := max_value_index, value := value }

/-! ## Concrete fixtures shared by witnesses and counterexamples -/

/-- A sample decoded entry (popularity 100). -/
def entryA : InterestForRegion :=
  { coordinates := { lat := 48, lng := 2 }
    formatted_value := ["100"]
    geo_name := "Alpha"
    has_data := [true]
    max_value_index := 0
    value := [100] }

/-- A sample decoded entry (popularity 55). -/
def entryB : InterestForRegion :=
  { coordinates := { lat := 35, lng := 139 }
    formatted_value := ["55"]
    geo_name := "Beta"
    has_data := [true]
    max_value_index := 0
    value := [55] }

/-- A sample decoded entry (popularity 7). -/
def entryC : InterestForRegion :=
  { coordinates := { lat := 40, lng := -74 }
    formatted_value := ["7"]
    geo_name := "Gamma"
    has_data := [true]
    max_value_index := 0
    value := [7] }

/-- A sample decoded entry (popularity 3). -/
def entryD : InterestForRegion :=
  { coordinates := { lat := -33, lng := 151 }
    formatted_value := ["3"]
    geo_name := "Delta"
    has_data := [true]
    max_value_index := 0
    value := [3] }

/-- Wrap one entry as one response slot. -/
def slotOf (e : InterestForRegion) : RegionInterestResponse :=
  { default := { geo_map_data := [e] } }

/-- A built client with three keywords on geography `US`. -/
def clientUS : Client :=
  { keywords := { keywords := ["PS4", "XBOX", "PC"] }, country := Country.US, built := true }

/-- A built client with one keyword on geography `ALL`. -/
def clientALL : Client :=
  { keywords := { keywords := ["hacker"] }, country := Country.ALL, built := true }

/-- Accessor over `clientUS` (resolution defaults to `"REGION"`). -/
def riUS : RegionInterest := RegionInterest.new clientUS

/-- Accessor over `clientALL` (resolution auto-switches to `"COUNTRY"`). -/
def riALL : RegionInterest := RegionInterest.new clientALL

/-- A wire payload with four slots: aggregate plus one per keyword of
`clientUS`, all pairwise distinct. -/
def wire4 : List RegionInterestResponse :=
  [slotOf entryA, slotOf entryB, slotOf entryC, slotOf entryD]

/-- JSON text of one `InterestForRegion` entry with the given array
bodies for `value`, `hasData` and `formattedValue`. -/
def entryJson (vals hasData formatted : List Json) : Json :=
  Json.obj [("coordinates", Json.obj [("lat", Json.num 48), ("lng", Json.num 2)]),
            ("formattedValue", Json.arr formatted),
            ("geoName", Json.str "Somewhere"),
            ("hasData", Json.arr hasData),
            ("maxValueIndex", Json.num 0),
            ("value", Json.arr vals)]

/-- The entry decoded from `entryJson [num 10] [bool true, bool false] []`:
its three arrays have pairwise different lengths. -/
def entryUnequal : InterestForRegion :=
  { coordinates := { lat := 48, lng := 2 }
    formatted_value := []
    geo_name := "Somewhere"
    has_data := [true, false]
    max_value_index := 0
    value := [10] }

/-- The entry decoded from `entryJson [num 255] [bool true] [str "255"]`:
its popularity value 255 exceeds the documented 0 to 100 scale. -/
def entry255 : InterestForRegion :=
  { coordinates := { lat := 48, lng := 2 }
    formatted_value := ["255"]
    geo_name := "Somewhere"
    has_data := [true]
    max_value_index := 0
    value := [255] }

/-! ## Helper lemmas -/

/-- A predicate that holds nowhere in the list gives `findIdx? = none`
(at any accumulator value). -/
theorem findIdx_none_of_not_mem {k : String} {l : List String} (h : k ∉ l) :
    ∀ i, l.findIdx? (fun x => x = k) i = none := by
  induction l with
  | nil => intro i; rfl
  | cons x xs ih =>
    intro i
    rw [List.findIdx?_cons]
    have hx : x ≠ k := by intro hxk; exact h (hxk ▸ List.mem_cons_self x xs)
    simp only [decide_eq_true_eq]
    rw [if_neg hx]
    exact ih (fun hm => h (List.mem_cons_of_mem x hm)) (i + 1)

/-- A successfully decoded `u8` is below 256. -/
theorem decodeU8_bound {j : Json} {a : Nat} (h : decodeU8 j = some a) : a < 256 := by
  cases j with
  | num n =>
    simp only [decodeU8] at h
    split at h
    · rename_i hn
      simp only [Option.some.injEq] at h
      omega
    · simp at h
  | null => simp [decodeU8] at h
  | bool b => simp [decodeU8] at h
  | str s => simp [decodeU8] at h
  | arr es => simp [decodeU8] at h
  | obj fs => simp [decodeU8] at h

/-- Every element decoded by `decodeU8` is below 256. -/
theorem decodeElems_u8_bound :
    ∀ {js : List Json} {xs : List Nat}, decodeElems decodeU8 js = some xs →
      ∀ x ∈ xs, x < 256 := by
  intro js
  induction js with
  | nil =>
    intro xs h x hx
    simp only [decodeElems, Option.some.injEq] at h
    subst h
    simp at hx
  | cons j js ih =>
    intro xs h x hx
    simp only [decodeElems] at h
    cases hd : decodeU8 j with
    | none => rw [hd] at h; simp at h
    | some a =>
      cases ht : decodeElems decodeU8 js with
      | none => rw [hd, ht] at h; simp at h
      | some rest =>
        rw [hd, ht] at h
        simp only [Option.some.injEq] at h
        subst h
        rcases List.mem_cons.mp hx with hxa | hxr
        · exact hxa ▸ decodeU8_bound hd
        · exact ih ht x hxr

/-- Decoding a replicated array body yields the replicated element. -/
theorem decodeElems_replicate {α : Type} (d : Json → Option α) (j : Json) (x : α)
    (h : d j = some x) : ∀ n, decodeElems d (List.replicate n j) = some (List.replicate n x) := by
  intro n
  induction n with
  | zero => rfl
  | succ n ih => simp [List.replicate_succ, decodeElems, h, ih]

/-- Every element of a `Vec<u8>` decode is below 256. -/
theorem decodeVec_u8_bound {j : Json} {xs : List Nat} (h : decodeVec decodeU8 j = some xs) :
    ∀ x ∈ xs, x < 256 := by
  cases j with
  | arr es => exact decodeElems_u8_bound h
  | null => simp [decodeVec] at h
  | bool b => simp [decodeVec] at h
  | num n => simp [decodeVec] at h
  | str s => simp [decodeVec] at h
  | obj fs => simp [decodeVec] at h

/-! ## Claim theorems -/

/-- C1 (amended): whenever `send_request` yields the multi-response
sequence `resp`, `get()` returns exactly the decoded geo-map data of the
first slot of `resp` — the default/aggregate entry, which carries the
per-region breakdown for all keywords combined.  `Vec::remove(0)`
returns the removed element, so the aggregate slot is kept, not
discarded. -/
theorem get_returns_first_slot (r : RegionInterest)
    (wire resp : List RegionInterestResponse) (s : RegionInterestResponse)
    (h1 : r.send_request wire = Outcome.ok resp) (h2 : resp.get? 0 = some s) :
    r.get wire = Outcome.ok s.default.geo_map_data := by
  have hv : vecRemove resp 0 = Outcome.ok s := by unfold vecRemove; rw [h2]
  simp [RegionInterest.get, h1, hv]

/-- C1 witness: on the concrete four-slot payload `wire4`, `get()`
returns the data of slot 0. -/
theorem get_returns_first_slot_witness :
    riUS.get wire4 = Outcome.ok (slotOf entryA).default.geo_map_data :=
  get_returns_first_slot riUS wire4 wire4 (slotOf entryA) (by decide) (by decide)

/-- C1 counterexample: the claim says the data returned by `get()`
never includes the first (aggregate) slot of the raw sequence; on the
concrete payload `wire4` the returned data is exactly the first slot,
and that slot is distinct from the others. -/
theorem get_keeps_aggregate_slot_counterexample :
    riUS.get wire4 = Outcome.ok (slotOf entryA).default.geo_map_data ∧
    wire4.get? 0 = some (slotOf entryA) ∧
    (slotOf entryA).default.geo_map_data ≠ (slotOf entryB).default.geo_map_data :=
  ⟨by decide, by decide, by decide⟩

/-- C2: for a keyword registered at zero-based position `i`, whenever
`send_request` yields the sequence `resp` holding a slot at index
`i + 1`, `get_for` returns exactly the decoded geo-map data of that
slot. -/
theorem get_for_returns_slot_succ (r : RegionInterest) (keyword : String) (i : Nat)
    (wire resp : List RegionInterestResponse) (s : RegionInterestResponse)
    (h1 : r.client.keywords.keywords.findIdx? (fun x => x = keyword) = some i)
    (h2 : r.send_request wire = Outcome.ok resp)
    (h3 : resp.get? (i + 1) = some s) :
    r.get_for keyword wire = Outcome.ok s.default.geo_map_data := by
  have hv : vecRemove resp (i + 1) = Outcome.ok s := by unfold vecRemove; rw [h3]
  simp [RegionInterest.get_for, h1, h2, hv]

/-- C2 witness: `"XBOX"` sits at position 1 of `clientUS`, and
`get_for` returns slot 2 of the concrete payload `wire4`. -/
theorem get_for_returns_slot_succ_witness :
    riUS.get_for "XBOX" wire4 = Outcome.ok (slotOf entryC).default.geo_map_data :=
  get_for_returns_slot_succ riUS "XBOX" 1 wire4 wire4 (slotOf entryC)
    (by decide) (by decide) (by decide)

/-- C3: for a keyword that is not in the registered keyword list,
`get_for` never returns data, whatever the response payload is — the
lookup fails before the request is even issued. -/
theorem get_for_unregistered_never_returns_data (r : RegionInterest) (keyword : String)
    (h : keyword ∉ r.client.keywords.keywords) :
    ∀ (wire : List RegionInterestResponse) (d : List InterestForRegion),
      r.get_for keyword wire ≠ Outcome.ok d := by
  intro wire d
  unfold RegionInterest.get_for
  rw [findIdx_none_of_not_mem h 0]
  simp

/-- C3 witness: `"WII"` is not registered in `clientUS`, and `get_for`
returns no data on the concrete payload `wire4`. -/
theorem get_for_unregistered_never_returns_data_witness :
    ("WII" ∉ riUS.client.keywords.keywords) ∧
    riUS.get_for "WII" wire4 ≠ Outcome.ok [entryA] :=
  ⟨by decide, get_for_unregistered_never_returns_data riUS "WII" (by decide) wire4 [entryA]⟩

/-- C4 counterexample: the claim says an unregistered keyword surfaces
a structured error value the caller must handle instead of an
unconditional fatal stop; on the concrete input the call is a panic
(the `KeywordNotSet` error is built and immediately unwrapped), so no
error value ever reaches the caller. -/
theorem get_for_unregistered_panics_counterexample :
    riUS.get_for "WII" wire4 =
      Outcome.panicked "called `Result::unwrap()` on an `Err` value: KeywordNotSet" := by
  decide

/-- C4 (amended): in the shown revision, an unregistered keyword passed
to `get_for` is an unconditional fatal stop whose panic message names
the structured error value `KeywordNotSet`; the error value itself is
unwrapped on the spot and never returned. -/
theorem get_for_unregistered_fatal_named_error (r : RegionInterest) (keyword : String)
    (h : keyword ∉ r.client.keywords.keywords) :
    ∀ (wire : List RegionInterestResponse),
      r.get_for keyword wire =
        Outcome.panicked "called `Result::unwrap()` on an `Err` value: KeywordNotSet" := by
  intro wire
  unfold RegionInterest.get_for
  rw [findIdx_none_of_not_mem h 0]

/-- C4 witness: the fatal stop at the concrete unregistered keyword
`"WII"` on `clientALL`. -/
theorem get_for_unregistered_fatal_named_error_witness :
    riALL.get_for "WII" [] =
      Outcome.panicked "called `Result::unwrap()` on an `Err` value: KeywordNotSet" :=
  get_for_unregistered_fatal_named_error riALL "WII" (by decide) []

/-- C5: `new(c)` wraps the client unchanged and sets the resolution
filter to `"COUNTRY"` exactly when the country is the `ALL` selector,
and to `"REGION"` in every other case. -/
theorem new_sets_resolution_by_country (c : Client) :
    (RegionInterest.new c).client = c ∧
    (RegionInterest.new c).resolution =
      (if c.country = Country.ALL then "COUNTRY" else "REGION") :=
  ⟨rfl, rfl⟩

/-- C6 counterexample: the claim says the value, has-data and
formatted-value arrays of every decoded entry are equal in length; this
concrete JSON decodes successfully into `entryUnequal`, whose three
arrays have pairwise different lengths. -/
theorem decode_unequal_lengths_counterexample :
    decodeInterestForRegion (entryJson [Json.num 10] [Json.bool true, Json.bool false] []) =
      some entryUnequal ∧
    entryUnequal.value.length ≠ entryUnequal.has_data.length ∧
    entryUnequal.has_data.length ≠ entryUnequal.formatted_value.length :=
  ⟨by decide, by decide, by decide⟩

/-- C6 (amended): the decode of `InterestForRegion` places no relation
on the lengths of the value, has-data and formatted-value arrays: for
any three target lengths there is a JSON input that decodes to an entry
with exactly those lengths.  (The coordinates are a single lat/lng
pair, not a parallel array.) -/
theorem decode_lengths_unconstrained (n m p : Nat) :
    ∃ (j : Json) (e : InterestForRegion),
      decodeInterestForRegion j = some e ∧
      e.value.length = n ∧ e.has_data.length = m ∧ e.formatted_value.length = p := by
  refine ⟨entryJson (List.replicate n (Json.num 0)) (List.replicate m (Json.bool true))
      (List.replicate p (Json.str "x")),
    { coordinates := { lat := 48, lng := 2 }
      formatted_value := List.replicate p "x"
      geo_name := "Somewhere"
      has_data := List.replicate m true
      max_value_index := 0
      value := List.replicate n 0 }, ?_, ?_, ?_, ?_⟩
  · have hv := decodeElems_replicate decodeU8 (Json.num 0) 0 (by decide) n
    have hb := decodeElems_replicate decodeBool (Json.bool true) true (by decide) m
    have hs := decodeElems_replicate decodeStr (Json.str "x") "x" (by decide) p
    simp [entryJson, decodeInterestForRegion, Json.getField, List.lookup, decodeCoordinates,
      decodeNum, decodeStr, decodeUsize, decodeVec, hv, hb, hs]
  · simp
  · simp
  · simp

/-- C7 counterexample: the claim says no decoded popularity value
exceeds 100; this concrete JSON decodes successfully into `entry255`,
whose value array holds 255. -/
theorem decode_value_above_100_counterexample :
    decodeInterestForRegion (entryJson [Json.num 255] [Json.bool true] [Json.str "255"]) =
      some entry255 ∧ 255 ∈ entry255.value ∧ 100 < 255 :=
  ⟨by decide, by decide, by decide⟩

/-- C7 (amended): the only bound the decode of `InterestForRegion`
enforces on the elements of the value array is the `u8` range — every
decoded value is below 256; the 0 to 100 popularity scale is upstream
documentation, not a checked invariant. -/
theorem decode_value_within_u8 (j : Json) (e : InterestForRegion)
    (h : decodeInterestForRegion j = some e) : ∀ x ∈ e.value, x < 256 := by
  intro x hx
  simp only [decodeInterestForRegion, Option.bind_eq_some, Option.some.injEq] at h
  obtain ⟨jc, hjc, c, hc, jf, hjf, fv, hfv, jg, hjg, gn, hgn, jh, hjh, hd, hhd, jm, hjm,
    mv, hmv, jv, hjv, v, hv, he⟩ := h
  subst he
  exact decodeVec_u8_bound hv x hx

/-- C7 witness: the concrete decoded entry `entry255` and the `u8`
bound on its value 255. -/
theorem decode_value_within_u8_witness :
    decodeInterestForRegion (entryJson [Json.num 255] [Json.bool true] [Json.str "255"]) =
      some entry255 ∧ 255 < 256 :=
  ⟨by decide,
   decode_value_within_u8 (entryJson [Json.num 255] [Json.bool true] [Json.str "255"])
     entry255 (by decide) 255 (by decide)⟩

/-- C8: with a built client on the `ALL` countries geography, the
request made after `with_filter "REGION"` is fatal, while the request
after `with_filter "COUNTRY"`, or with no filter at all, succeeds on
any nonempty payload (the fatality itself lives in the spec-modelled
`send_request`; `with_filter` performs no validation). -/
theorem all_countries_region_filter_fatal (c : Client) (wire : List RegionInterestResponse)
    (hb : c.built = true) (hc : c.country = Country.ALL) (hw : wire ≠ []) :
    (∃ m, ((RegionInterest.new c).with_filter "REGION").get wire = Outcome.panicked m) ∧
    (∃ d, ((RegionInterest.new c).with_filter "COUNTRY").get wire = Outcome.ok d) ∧
    (∃ d, (RegionInterest.new c).get wire = Outcome.ok d) := by
  obtain ⟨s, rest, rfl⟩ : ∃ s rest, wire = s :: rest := by
    cases wire with
    | nil => exact absurd rfl hw
    | cons s rest => exact ⟨s, rest, rfl⟩
  refine ⟨⟨"response entries are labeled COUNTRY and do not decode under the REGION filter", ?_⟩,
    ⟨s.default.geo_map_data, ?_⟩, ⟨s.default.geo_map_data, ?_⟩⟩
  · simp [RegionInterest.get, RegionInterest.send_request, RegionInterest.with_filter,
      RegionInterest.new, hb, hc]
  · simp [RegionInterest.get, RegionInterest.send_request, RegionInterest.with_filter,
      RegionInterest.new, hb, hc, vecRemove]
  · simp [RegionInterest.get, RegionInterest.send_request, RegionInterest.new, hb, hc, vecRemove]

/-- C8 witness: the three outcomes at the concrete built `ALL`-country
client `clientALL` and a one-slot payload. -/
theorem all_countries_region_filter_fatal_witness :
    (∃ m, ((RegionInterest.new clientALL).with_filter "REGION").get [slotOf entryA] =
      Outcome.panicked m) ∧
    (∃ d, ((RegionInterest.new clientALL).with_filter "COUNTRY").get [slotOf entryA] =
      Outcome.ok d) ∧
    (∃ d, (RegionInterest.new clientALL).get [slotOf entryA] = Outcome.ok d) :=
  all_countries_region_filter_fatal clientALL [slotOf entryA] (by decide) (by decide) (by decide)

/-- C9: neither accessor guards the slot index against the response
length: `get()` panics whenever `send_request` yields an empty
sequence, and `get_for` on a keyword at position `i` panics whenever
the sequence has fewer than `i + 2` slots. -/
theorem unguarded_slot_index_panics :
    (∀ (r : RegionInterest) (wire : List RegionInterestResponse),
      r.send_request wire = Outcome.ok [] → ∃ m, r.get wire = Outcome.panicked m) ∧
    (∀ (r : RegionInterest) (keyword : String) (i : Nat)
        (wire resp : List RegionInterestResponse),
      r.client.keywords.keywords.findIdx? (fun x => x = keyword) = some i →
      r.send_request wire = Outcome.ok resp → resp.length < i + 2 →
      ∃ m, r.get_for keyword wire = Outcome.panicked m) := by
  constructor
  · intro r wire h
    refine ⟨"removal index (is out of bounds)", ?_⟩
    simp [RegionInterest.get, h, vecRemove]
  · intro r keyword i wire resp h1 h2 h3
    refine ⟨"removal index (is out of bounds)", ?_⟩
    have hv : vecRemove resp (i + 1) = Outcome.panicked "removal index (is out of bounds)" := by
      unfold vecRemove
      rw [List.get?_eq_none.mpr (by omega)]
    simp [RegionInterest.get_for, h1, h2, hv]

/-- C9 witness: `get()` on an empty payload and `get_for "PC"` (keyword
position 2) on a one-slot payload both panic. -/
theorem unguarded_slot_index_panics_witness :
    (∃ m, riALL.get [] = Outcome.panicked m) ∧
    (∃ m, riUS.get_for "PC" [slotOf entryA] = Outcome.panicked m) :=
  ⟨unguarded_slot_index_panics.1 riALL [] (by decide),
   unguarded_slot_index_panics.2 riUS "PC" 2 [slotOf entryA] [slotOf entryA]
     (by decide) (by decide) (by decide)⟩

/-- C10: `with_filter(scale)` sets the resolution to `scale` exactly as
given — any string is accepted, nothing is validated — and leaves the
wrapped client untouched; `get` and `get_for` are embedded as pure
functions of the receiver (taken by shared reference in the source) and
return no modified state. -/
theorem with_filter_sets_exactly_and_preserves_client (r : RegionInterest) (scale : String) :
    (r.with_filter scale).resolution = scale ∧ (r.with_filter scale).client = r.client :=
  ⟨rfl, rfl⟩

end RustTrend
